import Mathlib

/-!
Shallow embedding of `src/main.py` (a sales-report script): the loader's
derivation of a per-row deal-month from the free-text `status` column, and the
six metric functions. Monetary amounts are integers in minor currency units
(kopecks), as produced by the loader's `× 100` scaling step; exact rational
arithmetic stands in for Python floats (all quantities involved are integers
divided by powers of ten, represented exactly).
-/

namespace Analyst

/-- Characters matched by the regex class `[А-Яа-я]` of line 63 of
`src/main.py`: the contiguous Unicode range U+0410..U+044F. -/
def isCyr (c : Char) : Bool := 0x0410 ≤ c.toNat && c.toNat ≤ 0x044F

/-- Whitespace as matched by the regex class `\s` and by `str.split()`;
modelled as the ASCII whitespace set (the source data uses plain spaces). -/
def isPyWs (c : Char) : Bool :=
  c.toNat == 32 || c.toNat == 9 || c.toNat == 10 ||
    c.toNat == 13 || c.toNat == 11 || c.toNat == 12

/-- Digits as matched by `\d`, modelled as the ASCII digits `0`-`9`. -/
def isPyDigit (c : Char) : Bool := 48 ≤ c.toNat && c.toNat ≤ 57

/-- One attempt of the pattern `([А-Яа-я]+)\s(\d{4})` anchored at the head of
`cs`: a maximal nonempty run of Cyrillic letters, one whitespace character,
then four digits (group 1, group 2).  Shrinking the greedy `+` can never help
— the character after a shorter run is Cyrillic, hence not `\s` — so the
maximal run is the only candidate, as in Python's backtracking engine. -/
def tryMatch (cs : List Char) : Option (String × String) :=
  if (cs.takeWhile isCyr).isEmpty then none
  else
    match cs.drop (cs.takeWhile isCyr).length with
    | w :: rest =>
        if isPyWs w && (rest.take 4).length == 4 && (rest.take 4).all isPyDigit then
          some (String.mk (cs.takeWhile isCyr), String.mk (rest.take 4))
        else none
    | [] => none

/-- Leftmost-match search, `re.search` of the pattern `([А-Яа-я]+)\s(\d{4})`. -/
def reSearchList : List Char → Option (String × String)
  | [] => none
  | c :: rest =>
      match tryMatch (c :: rest) with
      | some r => some r
      | none => reSearchList rest

/-- The call `re.search(month_year_pattern, status)` from line 70 of `src/main.py`. -/
def reSearch (s : String) : Option (String × String) := reSearchList s.toList

/-- Python's `str.split()`: split on runs of whitespace, dropping empties. -/
def pySplitAux : List Char → List Char → List (List Char)
  | [], acc => if acc.isEmpty then [] else [acc.reverse]
  | c :: rest, acc =>
      if isPyWs c then
        if acc.isEmpty then pySplitAux rest [] else acc.reverse :: pySplitAux rest []
      else pySplitAux rest (c :: acc)

def pySplitWs (s : String) : List String :=
  (pySplitAux s.toList []).map String.mk

/-- The `month_year_dict` of lines 17-20 of `src/main.py`. -/
def monthYearDict : List (String × Nat) :=
  [("Январь", 1), ("Февраль", 2), ("Март", 3), ("Апрель", 4), ("Май", 5),
   ("Июнь", 6), ("Июль", 7), ("Август", 8), ("Сентябрь", 9), ("Октябрь", 10),
   ("Ноябрь", 11), ("Декабрь", 12)]

def lookupMonth (name : String) : Option Nat :=
  (monthYearDict.find? (fun p => p.1 == name)).map (·.2)

/-- Decimal value of a string of ASCII digits (`none` when a non-digit occurs
or the string is empty), as `strptime`'s `%Y` reads the year field. -/
def decDigits : List Char → Nat → Option Nat
  | [], acc => some acc
  | c :: rest, acc =>
      if isPyDigit c then decDigits rest (acc * 10 + (c.toNat - 48)) else none

def yearVal (s : String) : Option Nat :=
  if s.isEmpty then none else decDigits s.toList 0

/-- Success condition of `pd.to_datetime` on `f"01 \x7bmonth\x7d \x7byear\x7d"`: it succeeds exactly
when the first of that month lies inside the `pd.Timestamp` range
(1677-09-21 .. 2262-04-11); otherwise the `except` of line 29 yields `NaT`. -/
def tsOk (m y : Nat) : Bool :=
  (1677 < y || (y == 1677 && 10 ≤ m)) && (y < 2262 || (y == 2262 && m ≤ 4))

/-- Embedding of `parse_month_year` (lines 6-31 of `src/main.py`).  A month is represented
as a pair `(month, year)`; `none` stands for `NaT`/`None` cell values. -/
def parse_month_year (x : Option String) : Option (Nat × Nat) :=
  match x with
  | none => none
  | some s =>
      match pySplitWs s with
      | [mn, ys] =>
          match lookupMonth mn, yearVal ys with
          | some m, some y => if tsOk m y then some (m, y) else none
          | _, _ => none
      | _ => none

/-- A calendar date, as recovered by `pd.to_datetime(..., format='%d.%m.%Y')`
for the `receiving_date` column. -/
structure HDate where
  day : Nat
  month : Nat
  year : Nat
deriving DecidableEq, Repr

/-- One row of the spreadsheet after the column conversions of lines 51-57 of
`src/main.py`: `sum` is the amount in minor units (the `× 100`-scaled integer;
`none` for non-numeric cells), `status` is the raw status cell (`none` for
non-string cells), `receiving_date` is the parsed date (`none` for `NaT`). -/
structure RawRow where
  sum : Option Int
  status : Option String
  receiving_date : Option HDate
  new_current : String
  document : String
  sale : String
deriving DecidableEq, Repr

/-- A prepared row: a `RawRow` plus the derived `month_year` column. -/
structure Row where
  sum : Option Int
  status : Option String
  receiving_date : Option HDate
  new_current : String
  document : String
  sale : String
  month_year : Option (Nat × Nat)
deriving DecidableEq, Repr

/-- One step of the loop of lines 65-79: a string status with a regex match
replaces the carried `current_month_year` by `"{month} {year}"`; otherwise the
carried value is kept.  (The `if current_month_year:` truthiness test of line
77 never sees an empty string, since group 1 is a nonempty run.) -/
def stepToken (cur : Option String) (status : Option String) : Option String :=
  match status with
  | some s =>
      match reSearch s with
      | some (m, y) => some (m ++ " " ++ y)
      | none => cur
  | none => cur

def prepRow (cur : Option String) (r : RawRow) : Row :=
  { sum := r.sum, status := r.status, receiving_date := r.receiving_date,
    new_current := r.new_current, document := r.document, sale := r.sale,
    month_year := parse_month_year cur }

def loadAux : Option String → List RawRow → List Row
  | _, [] => []
  | cur, r :: rest =>
      let cur' := stepToken cur r.status
      prepRow cur' r :: loadAux cur' rest

/-- Embedding of `load_and_prepare_data` (lines 34-87), restricted to its successful data
path: the carry-forward scan filling `month_year`, then `parse_month_year`
applied to each carried token (rows never reached by a token keep `None`,
which parses to `NaT`). -/
def load_and_prepare_data (rows : List RawRow) : List Row := loadAux none rows

/-- The carried token after scanning a list of rows (the value of
`current_month_year` at the end of the loop of lines 65-79). -/
def tokenFold (cur : Option String) (rows : List RawRow) : Option String :=
  rows.foldl (fun c r => stepToken c r.status) cur

/-! Column accessors mirroring the pandas `.dt` comparisons: on a `NaT`
(`none`) value every comparison is `False`. -/

def dtMonthEq (r : Row) (m : Nat) : Bool :=
  match r.month_year with
  | some p => p.1 == m
  | none => false

def dtYearEq (r : Row) (y : Nat) : Bool :=
  match r.month_year with
  | some p => p.2 == y
  | none => false

def dtMonthLt (r : Row) (m : Nat) : Bool :=
  match r.month_year with
  | some p => p.1 < m
  | none => false

def rdMonthEq (r : Row) (m : Nat) : Bool :=
  match r.receiving_date with
  | some d => d.month == m
  | none => false

def rdYearEq (r : Row) (y : Nat) : Bool :=
  match r.receiving_date with
  | some d => d.year == y
  | none => false

def rdMonthLt (r : Row) (m : Nat) : Bool :=
  match r.receiving_date with
  | some d => d.month < m
  | none => false

def isPaid (r : Row) : Bool := r.status == some "ОПЛАЧЕНО"

/-- Embedding of `series.sum()` over the `sum` column: missing values are skipped (an
empty or all-missing selection sums to `0`). -/
def sumAmounts (rows : List Row) : Int :=
  rows.foldr (fun r acc => r.sum.getD 0 + acc) 0

/-- The row filter of lines 101-105: month 7, year 2021, status paid. -/
def julyFilter (r : Row) : Bool := dtMonthEq r 7 && dtYearEq r 2021 && isPaid r

/-- Embedding of `calculate_july_revenue` (lines 90-107): filter, sum, divide by 100. -/
def calculate_july_revenue (df : List Row) : Rat :=
  (sumAmounts (df.filter julyFilter) : Rat) / 100

/-! Generic pieces of the pandas group-by: first-occurrence deduplication and
insertion sort by a boolean `le` (group keys are listed in ascending order). -/

def firstOccursAux {α : Type} [DecidableEq α] : List α → List α → List α
  | [], _ => []
  | x :: xs, seen =>
      if x ∈ seen then firstOccursAux xs seen
      else x :: firstOccursAux xs (x :: seen)

def firstOccurs {α : Type} [DecidableEq α] (l : List α) : List α :=
  firstOccursAux l []

def insertLe {α : Type} (le : α → α → Bool) (x : α) : List α → List α
  | [] => [x]
  | y :: ys => if le x y then x :: y :: ys else y :: insertLe le x ys

def sortedKeys {α : Type} [DecidableEq α] (le : α → α → Bool) (l : List α) :
    List α :=
  (firstOccurs l).foldr (insertLe le) []

/-- Chronological order on `(month, year)` keys (pandas sorts the
`Timestamp` group keys ascending). -/
def dateLe (a b : Nat × Nat) : Bool := a.2 < b.2 || (a.2 == b.2 && a.1 ≤ b.1)

/-- Code-point lexicographic order on strings (Python string comparison,
used by the group-by key sort on the `sale` column). -/
def charsLe : List Char → List Char → Bool
  | [], _ => true
  | _ :: _, [] => false
  | a :: as, b :: bs => if a = b then charsLe as bs else decide (a < b)

def strLe (a b : String) : Bool := charsLe a.toList b.toList

/-- The grouping of `plot_revenue_trend` (lines 117-119): paid rows grouped
by `month_year` (rows with `NaT` keys are dropped by `groupby`), each group's
amounts summed and divided by 100, keys in ascending chronological order. -/
def monthly_revenue (df : List Row) : List ((Nat × Nat) × Rat) :=
  (sortedKeys dateLe ((df.filter isPaid).filterMap (·.month_year))).map
    (fun k => (k, (sumAmounts ((df.filter isPaid).filter
      (fun r => r.month_year == some k)) : Rat) / 100))

def septFilter (r : Row) : Bool := dtMonthEq r 9 && dtYearEq r 2021 && isPaid r

/-- Embedding of `find_top_manager` (lines 150-177): September-2021 paid rows grouped by
salesperson; `idxmax` returns the first key (in ascending key order) whose
group sum is maximal; the winning sum is converted to major units. -/
def find_top_manager (df : List Row) : Option String × Rat :=
  match (sortedKeys strLe ((df.filter septFilter).map (·.sale))).map
      (fun k => (k, sumAmounts ((df.filter septFilter).filter
        (fun r => r.sale == k)))) with
  | [] => (none, 0)
  | p :: rest =>
      (some (rest.foldl (fun acc q => if q.2 > acc.2 then q else acc) p).1,
       ((rest.foldl (fun acc q => if q.2 > acc.2 then q else acc) p).2 : Rat) / 100)

def octFilter (r : Row) : Bool := dtMonthEq r 10 && dtYearEq r 2021

/-- Embedding of `find_dominant_deal_type` (lines 180-199): October-2021 rows (no status
filter), most frequent `new/current` value.  The order among equally frequent
values is an artifact of `value_counts`; no property proved here depends on
it, and the embedding takes first-occurrence order. -/
def find_dominant_deal_type (df : List Row) : Option String :=
  match (firstOccurs ((df.filter octFilter).map (·.new_current))).map
      (fun v => (v, ((df.filter octFilter).filter
        (fun r => r.new_current == v)).length)) with
  | [] => none
  | p :: rest =>
      some (rest.foldl (fun acc q => if q.2 > acc.2 then q else acc) p).1

def mayFilter (r : Row) : Bool := dtMonthEq r 5 && dtYearEq r 2021

def origJuneFilter (r : Row) : Bool :=
  r.document == "оригинал" && rdMonthEq r 6 && rdYearEq r 2021

/-- Embedding of `count_originals_in_june` (lines 202-226): the two-stage filter — deals
of May 2021, then originals received in June 2021 — and the row count. -/
def count_originals_in_june (df : List Row) : Nat :=
  ((df.filter mayFilter).filter origJuneFilter).length

/-- The filter of lines 240-243: deal month `< 7` and deal year `= 2021`. -/
def beforeJulyFilter (r : Row) : Bool := dtMonthLt r 7 && dtYearEq r 2021

/-- The `new_deals` filter of lines 246-249: classification "новая", status
paid, original document, receiving-date month `< 7` (note: no condition on
the receiving-date year appears in the source). -/
def newDealFilter (r : Row) : Bool :=
  r.new_current == "новая" && r.status == some "ОПЛАЧЕНО" &&
    r.document == "оригинал" && rdMonthLt r 7

/-- The `current_deals` filter of lines 258-261: classification "текущая",
status different from "ПРОСРОЧЕНО" (a missing status also passes, as pandas
`!=` is `True` on `NaN`), original document, receiving month `< 7`. -/
def currentDealFilter (r : Row) : Bool :=
  r.new_current == "текущая" && r.status != some "ПРОСРОЧЕНО" &&
    r.document == "оригинал" && rdMonthLt r 7

def newDealsOf (df : List Row) : List Row :=
  (df.filter beforeJulyFilter).filter newDealFilter

def currentDealsOf (df : List Row) : List Row :=
  (df.filter beforeJulyFilter).filter currentDealFilter

/-- The lambda of line 255: `row['sum'] * 0.07 / 100`.  (On a row whose
amount is missing the source lambda would propagate `NA`, later skipped by
the group sum; the claims below only concern rows with a present amount.) -/
def newBonus (r : Row) : Option Rat :=
  r.sum.map (fun s : Int => (s : Rat) * 7 / 100 / 100)

/-- The lambda of line 267:
`row['sum'] * 0.05 / 100 if row['sum'] > 10000 else row['sum'] * 0.03 / 100`.
The threshold `10000` is compared against `row['sum']`, which is in minor
units after the `× 100` scaling of line 54. -/
def currentBonus (r : Row) : Option Rat :=
  r.sum.map (fun s : Int =>
    if s > 10000 then (s : Rat) * 5 / 100 / 100 else (s : Rat) * 3 / 100 / 100)

/-- The concatenation `pd.concat([new_deals, current_deals])` with each row's bonus. -/
def bonusRows (df : List Row) : List (String × Option Rat) :=
  (newDealsOf df).map (fun r => (r.sale, newBonus r)) ++
    (currentDealsOf df).map (fun r => (r.sale, currentBonus r))

/-- Embedding of `calculate_bonus` (lines 229-295): per-salesperson sums of the bonus
column (group keys ascending, missing bonuses skipped by the group sum). -/
def calculate_bonus (df : List Row) : List (String × Rat) :=
  (sortedKeys strLe ((bonusRows df).map (·.1))).map
    (fun k => (k, (((bonusRows df).filter
      (fun p => p.1 == k)).filterMap (·.2)).foldr (· + ·) 0))

/-- Round-half-to-even at integer precision, as `Series.round` rounds. -/
def roundHalfEven (q : Rat) : Int :=
  let f : Int := ⌊q⌋
  if q - f < 1 / 2 then f
  else if q - f > 1 / 2 then f + 1
  else if f % 2 = 0 then f else f + 1

/-- Display rounding `round(2)`: round-half-to-even at two decimal places. -/
def round2 (q : Rat) : Rat := (roundHalfEven (q * 100) : Rat) / 100

/-- The series `manager_bonuses.round(2)` of line 355: the per-salesperson totals as
`main` prints them. -/
def displayedBonuses (df : List Row) : List (String × Rat) :=
  (calculate_bonus df).map (fun p => (p.1, round2 p.2))

/-! The error path of the loader and of `main` (lines 84-87 and 318-324). -/

/-- What the attempt to read the source file can yield: the file is missing
(`FileNotFoundError` from `pd.read_excel`), reading or preparing raises some
other exception with a message, or a table of rows is obtained. -/
inductive FileContent : Type
  | missing : FileContent
  | unreadable (msg : String) : FileContent
  | table (rows : List RawRow) : FileContent

inductive LoadError : Type
  | fileNotFound (msg : String)
  | loadFailed (msg : String)
deriving DecidableEq

def LoadError.message : LoadError → String
  | .fileNotFound m => m
  | .loadFailed m => m

/-- Embedding of `load_and_prepare_data` with its `try/except` of lines 84-87: a missing
file re-raises `FileNotFoundError` with a message naming the attempted path;
any other failure raises `ValueError` wrapping the cause. -/
def load_and_prepare_data_io (fc : FileContent) (path : String) :
    Except LoadError (List Row) :=
  match fc with
  | .missing =>
      .error (.fileNotFound ("Файл " ++ path ++ " не найден. Проверьте путь."))
  | .unreadable msg =>
      .error (.loadFailed ("Ошибка при загрузке данных: " ++ msg))
  | .table rows => .ok (load_and_prepare_data rows)

/-- The results `main` computes and prints when the load succeeds. -/
structure Report where
  july_revenue : Rat
  monthly : List ((Nat × Nat) × Rat)
  top_manager : Option String × Rat
  dominant : Option String
  originals : Nat
  bonuses : List (String × Rat)
deriving DecidableEq

/-- Embedding of `main` (lines 298-366): on a load failure the error is printed and the
function returns before any metric is computed (`.error` carries only the
printed message, no partial `Report`); otherwise all six metrics are
computed over the prepared table. -/
def main (fc : FileContent) : Except String Report :=
  match load_and_prepare_data_io fc "data.xlsx" with
  | .error e => .error ("Ошибка при загрузке данных: " ++ e.message)
  | .ok df =>
      .ok { july_revenue := calculate_july_revenue df
            monthly := monthly_revenue df
            top_manager := find_top_manager df
            dominant := find_dominant_deal_type df
            originals := count_originals_in_june df
            bonuses := displayedBonuses df }

/-! Spec-side token predicates, used to state the claims about the loader's
token recognition (§4.1 of the spec): a "recognized token" is one of the 12
month names immediately followed (after one whitespace) by a 4-digit year,
while the source regex accepts any Cyrillic word in that position. -/

/-- A month-name token starts at the head of `t`. -/
def monthTokenAt (t : List Char) : Bool :=
  monthYearDict.any (fun p =>
    let n := p.1.toList
    t.take n.length == n &&
      match t.drop n.length with
      | w :: rest => isPyWs w && (rest.take 4).length == 4 && (rest.take 4).all isPyDigit
      | [] => false)

/-- The status text contains a month-name token (spec's recognized token). -/
def hasMonthToken (s : String) : Bool := s.toList.tails.any monthTokenAt

/-- The status text contains a match of the source regex: some Cyrillic word
followed by one whitespace and four digits. -/
def hasCyrYear (s : String) : Bool :=
  s.toList.tails.any (fun t => (tryMatch t).isSome)

/-- The raw row's status has no source-regex match at all. -/
def statusNoMatch (r : RawRow) : Bool :=
  match r.status with
  | some s => !hasCyrYear s
  | none => true

/-- The raw row's status has no spec-recognized month-name token. -/
def statusNoMonthToken (r : RawRow) : Bool :=
  match r.status with
  | some s => !hasMonthToken s
  | none => true

/-! Concrete tables used by the claim theorems and their witnesses. -/

def mkRaw (sum : Option Int) (st : Option String) (rd : Option HDate)
    (nc doc sale : String) : RawRow :=
  { sum := sum, status := st, receiving_date := rd, new_current := nc,
    document := doc, sale := sale }

/-- A month-marker row ("Май 2021") followed by one "current" deal of
500,000 minor units whose original was received on 15.06.2021. -/
def tblC1 : List RawRow :=
  [mkRaw none (some "Май 2021") none "" "" "A",
   mkRaw (some 500000) (some "ОПЛАЧЕНО") (some ⟨15, 6, 2021⟩) "текущая" "оригинал" "A"]

/-- A month-marker row followed by one qualifying "new" deal of 1,000,000
minor units (10,000 major units). -/
def tblC2 : List RawRow :=
  [mkRaw none (some "Май 2021") none "" "" "A",
   mkRaw (some 1000000) (some "ОПЛАЧЕНО") (some ⟨15, 6, 2021⟩) "новая" "оригинал" "A"]

/-- The prepared second row of `tblC1`, as the loader produces it. -/
def rowC1 : Row :=
  { sum := some 500000, status := some "ОПЛАЧЕНО",
    receiving_date := some ⟨15, 6, 2021⟩, new_current := "текущая",
    document := "оригинал", sale := "A", month_year := some (5, 2021) }

/-- The prepared second row of `tblC2`, as the loader produces it. -/
def rowC2 : Row :=
  { sum := some 1000000, status := some "ОПЛАЧЕНО",
    receiving_date := some ⟨15, 6, 2021⟩, new_current := "новая",
    document := "оригинал", sale := "A", month_year := some (5, 2021) }

/-- Like `tblC2` but the original is received on 15.06.2022 — a month before
July in a different year. -/
def tblC3 : List RawRow :=
  [mkRaw none (some "Май 2021") none "" "" "A",
   mkRaw (some 1000000) (some "ОПЛАЧЕНО") (some ⟨15, 6, 2022⟩) "новая" "оригинал" "A"]

/-- A recognized month token, then a status holding a non-month Cyrillic word
followed by four digits. -/
def tblC4 : List RawRow :=
  [mkRaw none (some "Май 2021") none "" "" "A",
   mkRaw none (some "Договор 1234") none "" "" "A"]

/-- As `tblC4` with different data: token at row 0, a tokenless (per the
spec's vocabulary) status at row 1. -/
def tblC5 : List RawRow :=
  [mkRaw none (some "Июнь 2021") none "" "" "A",
   mkRaw none (some "Счет 0001") none "" "" "A"]

/-- The two-row table of the C6 scenario, exactly as the claim states it:
row 1 status "Июль 2021" with amount 500,000, row 2 empty status with
amount 300,000. -/
def tblC6 : List RawRow :=
  [mkRaw (some 500000) (some "Июль 2021") none "" "" "A",
   mkRaw (some 300000) (some "") none "" "" "A"]

/-- The C6 scenario as the code actually realizes it: a month-marker row,
then two rows whose status is exactly the paid marker. -/
def tblC6fix : List RawRow :=
  [mkRaw none (some "Июль 2021") none "" "" "A",
   mkRaw (some 500000) (some "ОПЛАЧЕНО") none "" "" "A",
   mkRaw (some 300000) (some "ОПЛАЧЕНО") none "" "" "A"]

/-- A prepared row with deal-month July 2021, paid. -/
def rowJulyPaid : Row :=
  { sum := some 500000, status := some "ОПЛАЧЕНО", receiving_date := none,
    new_current := "", document := "", sale := "A", month_year := some (7, 2021) }

/-- A prepared May-2021 deal whose original was received on 15.07.2021. -/
def rowMayJulyRecv : Row :=
  { sum := some 100, status := some "ОПЛАЧЕНО",
    receiving_date := some ⟨15, 7, 2021⟩, new_current := "",
    document := "оригинал", sale := "B", month_year := some (5, 2021) }

/-- A prepared row whose derived deal-month is null yet which would pass
every other filter of the metrics. -/
def rowNullMonth : Row :=
  { sum := some 700, status := some "ОПЛАЧЕНО",
    receiving_date := some ⟨1, 6, 2021⟩, new_current := "новая",
    document := "оригинал", sale := "C", month_year := none }

/-! ## General lemmas about the embedding -/

theorem isPyWs_false_of_isCyr {c : Char} (h : isCyr c = true) :
    isPyWs c = false := by
  simp only [isCyr, Bool.and_eq_true, decide_eq_true_eq] at h
  simp only [isPyWs, Bool.or_eq_false_iff, beq_eq_false_iff_ne, ne_eq]
  omega

theorem isPyWs_false_of_isPyDigit {c : Char} (h : isPyDigit c = true) :
    isPyWs c = false := by
  simp only [isPyDigit, Bool.and_eq_true, decide_eq_true_eq] at h
  simp only [isPyWs, Bool.or_eq_false_iff, beq_eq_false_iff_ne, ne_eq]
  omega

/-- A successful anchored match: group 1 is a nonempty Cyrillic prefix of
`cs`, group 2 the four digits following one whitespace character. -/
theorem tryMatch_shape {cs : List Char} {a b : String}
    (h : tryMatch cs = some (a, b)) :
    a.toList ≠ [] ∧ (∀ c ∈ a.toList, isCyr c = true) ∧
      b.toList.length = 4 ∧ (∀ c ∈ b.toList, isPyDigit c = true) ∧
      cs.take a.toList.length = a.toList ∧
      (∃ w rest, cs.drop a.toList.length = w :: rest ∧ isPyWs w = true ∧
        rest.take 4 = b.toList) := by
  unfold tryMatch at h
  by_cases hrun : (cs.takeWhile isCyr).isEmpty = true
  · rw [if_pos hrun] at h; exact absurd h (by simp)
  · rw [if_neg hrun] at h
    cases hdrop : cs.drop (cs.takeWhile isCyr).length with
    | nil => rw [hdrop] at h; exact absurd h (by simp)
    | cons w rest =>
        rw [hdrop] at h
        simp only [] at h
        by_cases hcond : (isPyWs w && (rest.take 4).length == 4 &&
            (rest.take 4).all isPyDigit) = true
        · rw [if_pos hcond] at h
          simp only [Option.some.injEq, Prod.mk.injEq] at h
          obtain ⟨ha, hb⟩ := h
          simp only [Bool.and_eq_true, beq_iff_eq] at hcond
          obtain ⟨⟨hw, hlen⟩, hdig⟩ := hcond
          subst ha; subst hb
          refine ⟨?_, ?_, ?_, ?_, ?_, w, rest, hdrop, hw, rfl⟩
          · show cs.takeWhile isCyr ≠ []
            exact fun hc => hrun (by simp [hc])
          · intro c hc
            exact List.mem_takeWhile_imp (show c ∈ cs.takeWhile isCyr from hc)
          · exact hlen
          · intro c hc
            exact List.all_eq_true.mp hdig c (show c ∈ rest.take 4 from hc)
          · show cs.take (cs.takeWhile isCyr).length = cs.takeWhile isCyr
            exact (List.prefix_iff_eq_take.mp (List.takeWhile_prefix isCyr)).symm
        · rw [if_neg hcond] at h; exact absurd h (by simp)

/-- A successful leftmost search is a successful anchored match on some
suffix of the scanned characters. -/
theorem reSearchList_exists_tail {cs : List Char} {p : String × String}
    (h : reSearchList cs = some p) : ∃ t ∈ cs.tails, tryMatch t = some p := by
  induction cs with
  | nil => simp [reSearchList] at h
  | cons c rest ih =>
      rw [reSearchList] at h
      cases htry : tryMatch (c :: rest) with
      | some q =>
          simp only [htry] at h
          exact ⟨c :: rest, by simp [List.tails_cons], htry.trans h⟩
      | none =>
          simp only [htry] at h
          obtain ⟨t, ht, htm⟩ := ih h
          exact ⟨t, by rw [List.tails_cons]; exact List.mem_cons_of_mem _ ht, htm⟩

/-- The search succeeds exactly when some suffix matches. -/
theorem reSearchList_isSome (cs : List Char) :
    (reSearchList cs).isSome = cs.tails.any fun t => (tryMatch t).isSome := by
  induction cs with
  | nil => simp [reSearchList, List.tails, tryMatch]
  | cons c rest ih =>
      rw [reSearchList, List.tails_cons]
      cases htry : tryMatch (c :: rest) with
      | some q => simp [htry]
      | none => simp [htry, ih]

theorem pySplitAux_append_nonws (l rest acc : List Char)
    (h : ∀ c ∈ l, isPyWs c = false) :
    pySplitAux (l ++ rest) acc = pySplitAux rest (l.reverse ++ acc) := by
  induction l generalizing acc with
  | nil => simp
  | cons c l ih =>
      have hc := h c (List.mem_cons_self c l)
      rw [List.cons_append, pySplitAux, hc]
      simp only [Bool.false_eq_true, if_false]
      rw [ih (c :: acc) fun d hd => h d (List.mem_cons_of_mem c hd)]
      simp

theorem pySplitAux_single_word (b : List Char) (hb : b ≠ [])
    (hwb : ∀ c ∈ b, isPyWs c = false) :
    pySplitAux b [] = [b] := by
  have h := pySplitAux_append_nonws b [] [] hwb
  rw [List.append_nil] at h
  rw [h, pySplitAux]
  cases b with
  | nil => exact absurd rfl hb
  | cons x xs => simp

/-- Splitting `str.split()` on a string of the shape `"<word> <word>"` (both words
nonempty and whitespace-free) yields exactly the two words. -/
theorem pySplitWs_two_words (a b : String) (ha : a.toList ≠ [])
    (hb : b.toList ≠ []) (hwa : ∀ c ∈ a.toList, isPyWs c = false)
    (hwb : ∀ c ∈ b.toList, isPyWs c = false) :
    pySplitWs (a ++ " " ++ b) = [a, b] := by
  have htl : (a ++ " " ++ b).toList = a.toList ++ ' ' :: b.toList := by
    show (a.data ++ [' ']) ++ b.data = a.data ++ ' ' :: b.data
    simp
  unfold pySplitWs
  rw [htl, pySplitAux_append_nonws a.toList (' ' :: b.toList) [] hwa]
  rw [pySplitAux]
  rw [show isPyWs ' ' = true by decide]
  have hrev : (a.toList.reverse).isEmpty = false := by
    cases hA : a.toList with
    | nil => exact absurd hA ha
    | cons x xs => simp
  simp only [List.append_nil, hrev, if_true, Bool.false_eq_true, if_false,
    List.reverse_reverse]
  rw [pySplitAux_single_word b.toList hb hwb]
  show [String.mk a.data, String.mk b.data] = [a, b]
  rfl

/-- The parse `parse_month_year` yields `NaT` on any two-word token whose first word is
not in the month dictionary. -/
theorem parse_month_year_of_lookup_none {a b : String} (ha : a.toList ≠ [])
    (hb : b.toList ≠ []) (hwa : ∀ c ∈ a.toList, isPyWs c = false)
    (hwb : ∀ c ∈ b.toList, isPyWs c = false)
    (hlk : lookupMonth a = none) :
    parse_month_year (some (a ++ " " ++ b)) = none := by
  have hsplit := pySplitWs_two_words a b ha hb hwa hwb
  simp only [parse_month_year, hsplit, hlk]

/-- If a status has no spec-recognized month-name token but the source regex
does match, the matched first group is not a month name. -/
theorem lookupMonth_none_of_no_token {s : String} {a b : String}
    (hs : hasMonthToken s = false) (hm : reSearch s = some (a, b)) :
    lookupMonth a = none := by
  cases hlk : lookupMonth a with
  | none => rfl
  | some k =>
      exfalso
      obtain ⟨t, htl, htm⟩ := reSearchList_exists_tail hm
      obtain ⟨hne, hcyr, hlen, hdig, htake, w, rest, hdropEq, hw, htk⟩ :=
        tryMatch_shape htm
      unfold lookupMonth at hlk
      cases hfind : monthYearDict.find? (fun p => p.1 == a) with
      | none => rw [hfind] at hlk; exact absurd hlk (by simp)
      | some entry =>
          rw [hfind] at hlk
          have hmem : entry ∈ monthYearDict := List.mem_of_find?_eq_some hfind
          have hname : entry.1 = a := by
            have := List.find?_some hfind
            simpa using this
          have htok : monthTokenAt t = true := by
            unfold monthTokenAt
            refine List.any_eq_true.mpr ⟨entry, hmem, ?_⟩
            rw [hname]
            simp only [htake, beq_self_eq_true, Bool.true_and]
            rw [hdropEq]
            simp only [htk, hlen, hw, beq_self_eq_true, Bool.true_and,
              Bool.and_eq_true, List.all_eq_true]
            intro c hc
            exact hdig c hc
          have : hasMonthToken s = true :=
            List.any_eq_true.mpr ⟨t, htl, htok⟩
          rw [this] at hs
          exact absurd hs (by simp)

/-- A status with no regex match anywhere is one `re.search` fails on. -/
theorem reSearch_eq_none_of_hasCyrYear_false {s : String}
    (hcy : hasCyrYear s = false) : reSearch s = none := by
  cases hres : reSearch s with
  | none => rfl
  | some p =>
      have hsome : (reSearchList s.toList).isSome = true := by
        rw [show reSearchList s.toList = reSearch s from rfl, hres]; rfl
      rw [reSearchList_isSome] at hsome
      rw [show s.toList.tails.any (fun t => (tryMatch t).isSome) =
        hasCyrYear s from rfl, hcy] at hsome
      exact absurd hsome (by simp)

/-- A row whose status has no regex match never changes the carried token. -/
theorem stepToken_of_statusNoMatch (cur : Option String) {r : RawRow}
    (h : statusNoMatch r = true) : stepToken cur r.status = cur := by
  unfold statusNoMatch at h
  unfold stepToken
  cases hst : r.status with
  | none => rfl
  | some s =>
      rw [hst] at h
      have hcy : hasCyrYear s = false := by simpa using h
      simp only [reSearch_eq_none_of_hasCyrYear_false hcy]

theorem loadAux_append (cur : Option String) (l1 l2 : List RawRow) :
    loadAux cur (l1 ++ l2) = loadAux cur l1 ++ loadAux (tokenFold cur l1) l2 := by
  induction l1 generalizing cur with
  | nil => simp [loadAux, tokenFold]
  | cons r l ih =>
      rw [List.cons_append, loadAux, loadAux, ih]
      simp [tokenFold]

theorem loadAux_length (cur : Option String) (l : List RawRow) :
    (loadAux cur l).length = l.length := by
  induction l generalizing cur with
  | nil => rfl
  | cons r l ih => rw [loadAux]; simp [ih]

/-- Across rows with no regex match, every derived deal-month equals the
parse of the carried token. -/
theorem loadAux_months_const (cur : Option String) (l : List RawRow)
    (h : ∀ q ∈ l, statusNoMatch q = true) :
    (loadAux cur l).map (·.month_year) =
      List.replicate l.length (parse_month_year cur) := by
  induction l generalizing cur with
  | nil => rfl
  | cons r l ih =>
      have hstep := stepToken_of_statusNoMatch cur (h r (List.mem_cons_self r l))
      rw [loadAux]
      simp only [hstep, List.map_cons, List.length_cons, List.replicate_succ,
        List.cons.injEq]
      exact ⟨rfl, ih cur fun q hq => h q (List.mem_cons_of_mem r hq)⟩

/-- Across rows with no month-name token, a carried token that parses to
`NaT` keeps every derived deal-month at `NaT`, and still parses to `NaT`
at the end of the scan. -/
theorem loadAux_months_none (l : List RawRow) :
    ∀ cur, parse_month_year cur = none →
      (∀ q ∈ l, statusNoMonthToken q = true) →
      (loadAux cur l).map (·.month_year) = List.replicate l.length none ∧
        parse_month_year (tokenFold cur l) = none := by
  induction l with
  | nil => intro cur hcur _; exact ⟨rfl, by simpa [tokenFold] using hcur⟩
  | cons r l ih =>
      intro cur hcur h
      have hr := h r (List.mem_cons_self r l)
      have hcur' : parse_month_year (stepToken cur r.status) = none := by
        cases hst : r.status with
        | none =>
            have hkeep : stepToken cur none = cur := rfl
            rw [hkeep]; exact hcur
        | some s =>
            have hsm : hasMonthToken s = false := by
              unfold statusNoMonthToken at hr
              rw [hst] at hr; simpa using hr
            cases hres : reSearch s with
            | none =>
                have hkeep : stepToken cur (some s) = cur := by
                  simp only [stepToken, hres]
                rw [hkeep]; exact hcur
            | some p =>
                obtain ⟨a, b⟩ := p
                have hset : stepToken cur (some s) = some (a ++ " " ++ b) := by
                  simp only [stepToken, hres]
                rw [hset]
                have hlk := lookupMonth_none_of_no_token hsm hres
                obtain ⟨t, htl, htm⟩ := reSearchList_exists_tail hres
                obtain ⟨hne, hcyr, hlen, hdig, -, -⟩ := tryMatch_shape htm
                have hbne : b.toList ≠ [] := by
                  intro hc; rw [hc] at hlen; exact absurd hlen (by simp)
                exact parse_month_year_of_lookup_none hne hbne
                  (fun c hc => isPyWs_false_of_isCyr (hcyr c hc))
                  (fun c hc => isPyWs_false_of_isPyDigit (hdig c hc)) hlk
      have hrest := ih (stepToken cur r.status) hcur'
        fun q hq => h q (List.mem_cons_of_mem r hq)
      constructor
      · rw [loadAux]
        simp only [List.map_cons, List.length_cons, List.replicate_succ,
          List.cons.injEq]
        exact ⟨by simpa [prepRow] using hcur', hrest.1⟩
      · rw [show tokenFold cur (r :: l) =
          tokenFold (stepToken cur r.status) l from rfl]
        exact hrest.2

/-- Filtering ignores a middle element on which the predicate is false. -/
theorem filter_mid_of_false {α : Type} {p : α → Bool} {x : α} (l1 l2 : List α)
    (h : p x = false) :
    (l1 ++ x :: l2).filter p = (l1 ++ l2).filter p := by
  simp [List.filter_append, List.filter_cons, h]

/-- A `filterMap` ignores a middle element sent to `none`. -/
theorem filterMap_mid_of_none {α β : Type} {f : α → Option β} {x : α}
    (l1 l2 : List α) (h : f x = none) :
    (l1 ++ x :: l2).filterMap f = (l1 ++ l2).filterMap f := by
  simp [List.filterMap_append, List.filterMap_cons, h]

/-- The deal-month filter of the bonus computation, in spec terms. -/
theorem beforeJulyFilter_iff (r : Row) :
    beforeJulyFilter r = true ↔ ∃ m, r.month_year = some (m, 2021) ∧ m < 7 := by
  unfold beforeJulyFilter dtMonthLt dtYearEq
  cases hm : r.month_year with
  | none => simp
  | some p =>
      obtain ⟨m, y⟩ := p
      simp only [Bool.and_eq_true, decide_eq_true_eq, beq_iff_eq,
        Option.some.injEq, Prod.mk.injEq]
      constructor
      · rintro ⟨h1, h2⟩
        exact ⟨m, ⟨rfl, h2⟩, h1⟩
      · rintro ⟨m2, ⟨he1, he2⟩, hlt⟩
        exact ⟨he1 ▸ hlt, he2⟩

/-- The receiving-date filter of the bonus computation, in spec terms: only
the month is constrained, not the year. -/
theorem rdMonthLt_iff (r : Row) :
    rdMonthLt r 7 = true ↔ ∃ d, r.receiving_date = some d ∧ d.month < 7 := by
  unfold rdMonthLt
  cases hd : r.receiving_date with
  | none => simp
  | some d =>
      simp only [decide_eq_true_eq, Option.some.injEq]
      constructor
      · intro h; exact ⟨d, rfl, h⟩
      · rintro ⟨d2, he, hlt⟩; exact he ▸ hlt

/-! ## The claims -/

/-- C1: the bonus-accrual computation applies the 0.0005 multiplier to the
qualifying "current" deal of `tblC1` although its amount, 500,000 minor units,
does not exceed 1,000,000 minor units: the code yields `500000 × 0.0005 =
250`, while the claimed rule requires `500000 × 0.0003 = 150`.  The source
compares the minor-unit amount against the literal `10000` (100 major units),
although the amounts were scaled by 100 at load time — the claim describes
the evident intent (a 10,000-major-unit threshold) and the code is the slip. -/
theorem C1_threshold_bug :
    calculate_bonus (load_and_prepare_data tblC1) = [("A", 250)] ∧
    currentBonus rowC1 = some ((500000 : Rat) * 5 / 100 / 100) ∧
    ¬ (500000 : Int) > 1000000 ∧
    (250 : Rat) = 500000 * 5 / 100 / 100 ∧
    (500000 : Rat) * 3 / 100 / 100 = 150 ∧
    (250 : Rat) ≠ 150 := by
  refine ⟨?_, ?_, by norm_num, by norm_num, by norm_num, by norm_num⟩
  · have h1 : newDealsOf (load_and_prepare_data tblC1) = [] := by decide
    have h2 : currentDealsOf (load_and_prepare_data tblC1) = [rowC1] := by decide
    unfold calculate_bonus bonusRows
    rw [h1, h2]
    norm_num [currentBonus, rowC1, sortedKeys, firstOccurs, firstOccursAux,
      insertLe, round2, roundHalfEven, List.filterMap_cons, List.foldr_cons,
      List.foldr_nil]
  · unfold currentBonus rowC1
    norm_num

/-- C2 counterexample: for the single qualifying "new" deal of 1,000,000
minor units in `tblC2` the program displays a per-salesperson total of
700.00, not the claimed 7.00. -/
theorem C2_counterexample :
    displayedBonuses (load_and_prepare_data tblC2) = [("A", 700)] ∧
    (700 : Rat) ≠ 7 := by
  constructor
  · have h1 : newDealsOf (load_and_prepare_data tblC2) = [rowC2] := by decide
    have h2 : currentDealsOf (load_and_prepare_data tblC2) = [] := by decide
    unfold displayedBonuses calculate_bonus bonusRows
    rw [h1, h2]
    norm_num [newBonus, rowC2, sortedKeys, firstOccurs, firstOccursAux,
      insertLe, round2, roundHalfEven, List.filterMap_cons, List.foldr_cons,
      List.foldr_nil]
  · norm_num

/-- C2 (amended): every "new" deal passing the bonus filters accrues
`amount × 0.0007` with the amount in minor units, and the per-salesperson
totals are rounded to 2 decimal places for display in the scale the accrual
produces: the single qualifying "new" deal of 1,000,000 minor units yields a
displayed bonus of 700.00 (i.e. 7% of the 10,000-major-unit amount), not
7.00. -/
theorem C2_amended (df : List Row) (r : Row) (a : Int)
    (hmem : r ∈ newDealsOf df) (ha : r.sum = some a) :
    newBonus r = some ((a : Rat) * 7 / 10000) ∧
    displayedBonuses (load_and_prepare_data tblC2) =
      [("A", round2 ((1000000 : Rat) * 7 / 10000))] ∧
    round2 ((1000000 : Rat) * 7 / 10000) = 700 := by
  have hval : (1000000 : Rat) * 7 / 10000 = 700 := by norm_num
  refine ⟨?_, ?_, ?_⟩
  · unfold newBonus
    rw [ha, Option.map_some']
    congr 1
    rw [div_div]
    norm_num
  · rw [hval]
    have h1 : newDealsOf (load_and_prepare_data tblC2) = [rowC2] := by decide
    have h2 : currentDealsOf (load_and_prepare_data tblC2) = [] := by decide
    unfold displayedBonuses calculate_bonus bonusRows
    rw [h1, h2]
    norm_num [newBonus, rowC2, sortedKeys, firstOccurs, firstOccursAux,
      insertLe, round2, roundHalfEven, List.filterMap_cons, List.foldr_cons,
      List.foldr_nil]
  · rw [hval]
    norm_num [round2, roundHalfEven]

/-- C2 witness: the amended claim applied to the qualifying deal itself. -/
theorem C2_witness :
    newBonus rowC2 = some ((1000000 : Rat) * 7 / 10000) ∧
    displayedBonuses (load_and_prepare_data tblC2) =
      [("A", round2 ((1000000 : Rat) * 7 / 10000))] ∧
    round2 ((1000000 : Rat) * 7 / 10000) = 700 :=
  C2_amended (load_and_prepare_data tblC2) rowC2 1000000 (by decide) rfl

/-- C3 counterexample: the deal of `tblC3` has deal-month May 2021 and its
original is received on 15.06.2022 — a month before July but in a different
year — yet the code accrues a bonus of 700 for it instead of excluding it. -/
theorem C3_counterexample :
    (load_and_prepare_data tblC3).map (fun r => r.receiving_date) =
      [none, some ⟨15, 6, 2022⟩] ∧
    calculate_bonus (load_and_prepare_data tblC3) = [("A", 700)] ∧
    (700 : Rat) ≠ 0 := by
  refine ⟨by decide, ?_, by norm_num⟩
  have h1 : newDealsOf (load_and_prepare_data tblC3) =
      [{ sum := some 1000000, status := some "ОПЛАЧЕНО",
         receiving_date := some ⟨15, 6, 2022⟩, new_current := "новая",
         document := "оригинал", sale := "A", month_year := some (5, 2021) }] := by
    decide
  have h2 : currentDealsOf (load_and_prepare_data tblC3) = [] := by decide
  unfold calculate_bonus bonusRows
  rw [h1, h2]
  norm_num [newBonus, sortedKeys, firstOccurs, firstOccursAux, insertLe,
    List.filterMap_cons, List.foldr_cons, List.foldr_nil]

/-- C3 (amended): a deal enters the bonus computation iff its deal-month is a
month before July of 2021 and — together with the partition filters — its
receiving date falls in a month before July of ANY year: the year of the
receiving date is not constrained by the code. -/
theorem C3_amended (df : List Row) (r : Row) :
    (r ∈ newDealsOf df ↔ r ∈ df ∧
      (∃ m, r.month_year = some (m, 2021) ∧ m < 7) ∧
      r.new_current = "новая" ∧ r.status = some "ОПЛАЧЕНО" ∧
      r.document = "оригинал" ∧
      (∃ d, r.receiving_date = some d ∧ d.month < 7)) ∧
    (r ∈ currentDealsOf df ↔ r ∈ df ∧
      (∃ m, r.month_year = some (m, 2021) ∧ m < 7) ∧
      r.new_current = "текущая" ∧ r.status ≠ some "ПРОСРОЧЕНО" ∧
      r.document = "оригинал" ∧
      (∃ d, r.receiving_date = some d ∧ d.month < 7)) := by
  constructor
  · unfold newDealsOf
    rw [List.mem_filter, List.mem_filter]
    unfold newDealFilter
    simp only [Bool.and_eq_true, beq_iff_eq, beforeJulyFilter_iff r,
      rdMonthLt_iff r]
    tauto
  · unfold currentDealsOf
    rw [List.mem_filter, List.mem_filter]
    unfold currentDealFilter
    simp only [Bool.and_eq_true, beq_iff_eq, bne_iff_ne, beforeJulyFilter_iff r,
      rdMonthLt_iff r]
    tauto

/-- C3 witness: the amended characterization applied to the June-2022 deal. -/
theorem C3_witness :
    (rowC2 ∈ newDealsOf (load_and_prepare_data tblC2) ↔
      rowC2 ∈ load_and_prepare_data tblC2 ∧
      (∃ m, rowC2.month_year = some (m, 2021) ∧ m < 7) ∧
      rowC2.new_current = "новая" ∧ rowC2.status = some "ОПЛАЧЕНО" ∧
      rowC2.document = "оригинал" ∧
      (∃ d, rowC2.receiving_date = some d ∧ d.month < 7)) ∧
    (rowC2 ∈ currentDealsOf (load_and_prepare_data tblC2) ↔
      rowC2 ∈ load_and_prepare_data tblC2 ∧
      (∃ m, rowC2.month_year = some (m, 2021) ∧ m < 7) ∧
      rowC2.new_current = "текущая" ∧ rowC2.status ≠ some "ПРОСРОЧЕНО" ∧
      rowC2.document = "оригинал" ∧
      (∃ d, rowC2.receiving_date = some d ∧ d.month < 7)) :=
  C3_amended (load_and_prepare_data tblC2) rowC2

/-- C4 counterexample: "Договор 1234" contains none of the 12 month names,
yet it overwrites the carried token, so the second row of `tblC4` does NOT
keep the carried May-2021 deal-month: its derived deal-month is null. -/
theorem C4_counterexample :
    (load_and_prepare_data tblC4).map (fun r => r.month_year) =
      [some (5, 2021), none] ∧
    hasMonthToken "Договор 1234" = false ∧
    (none : Option (Nat × Nat)) ≠ some (5, 2021) := by
  refine ⟨by decide, by decide, by decide⟩

/-- C4 (amended): a row's status updates the carried token iff it contains
ANY Cyrillic word immediately followed (after one whitespace) by four digits
— not only the 12 month names — with the leftmost match winning; statuses
with no such match keep the carried value, and every month name followed by
a 4-digit year is indeed such a match. -/
theorem C4_amended (cur : Option String) (s : String) :
    (hasCyrYear s = false → stepToken cur (some s) = cur) ∧
    (∀ m y : String, reSearch s = some (m, y) →
      stepToken cur (some s) = some (m ++ " " ++ y)) ∧
    (reSearch s).isSome = hasCyrYear s ∧
    monthYearDict.all
      (fun p => reSearch (p.1 ++ " 2021") == some (p.1, "2021")) = true := by
  refine ⟨?_, ?_, ?_, by decide⟩
  · intro h
    simp only [stepToken, reSearch_eq_none_of_hasCyrYear_false h]
  · intro m y h
    simp only [stepToken, h]
  · exact reSearchList_isSome s.toList

/-- C4 witness: a tokenless status keeps the carried value; a non-month
Cyrillic word with four digits overwrites it. -/
theorem C4_witness :
    stepToken (some "Май 2021") (some "подписан") = some "Май 2021" ∧
    stepToken (some "Май 2021") (some "Договор 1234") =
      some ("Договор" ++ " " ++ "1234") :=
  ⟨(C4_amended (some "Май 2021") "подписан").1 (by decide),
   (C4_amended (some "Май 2021") "Договор 1234").2.1 "Договор" "1234" (by decide)⟩

/-- C5 counterexample: in `tblC5` row 0 holds the recognized token
"Июнь 2021" and row 1's status "Счет 0001" contains no month-name token,
yet row 1's derived deal-month is null rather than the carried June 2021. -/
theorem C5_counterexample :
    (load_and_prepare_data tblC5).map (fun r => r.month_year) =
      [some (6, 2021), none] ∧
    hasMonthToken "Счет 0001" = false ∧
    (none : Option (Nat × Nat)) ≠ some (6, 2021) := by
  refine ⟨by decide, by decide, by decide⟩

/-- C5 (amended): with "token" read as a match of the source regex (any
Cyrillic word followed by four digits): if the status of row i matches with
groups (m, y) and the statuses of rows i+1..i+k have no match at all, then
rows i..i+k all carry the same deal-month, the parse of "m y"; and — as the
claim states — every row preceding the first month-name token in the file
has a null deal-month. -/
theorem C5_amended (pre rest : List RawRow) (r : RawRow) (s m y : String)
    (pre2 suf : List RawRow)
    (hs : r.status = some s) (hm : reSearch s = some (m, y))
    (hrest : ∀ q ∈ rest, statusNoMatch q = true)
    (hpre2 : ∀ q ∈ pre2, statusNoMonthToken q = true) :
    ((load_and_prepare_data (pre ++ r :: rest)).drop pre.length).map
        (fun x => x.month_year) =
      List.replicate (rest.length + 1)
        (parse_month_year (some (m ++ " " ++ y))) ∧
    ((load_and_prepare_data (pre2 ++ suf)).take pre2.length).map
        (fun x => x.month_year) =
      List.replicate pre2.length none := by
  constructor
  · unfold load_and_prepare_data
    rw [loadAux_append, List.drop_left' (loadAux_length none pre)]
    rw [loadAux]
    have hstep : stepToken (tokenFold none pre) r.status =
        some (m ++ " " ++ y) := by
      rw [hs]; simp only [stepToken, hm]
    simp only [hstep, List.map_cons, List.replicate_succ, List.cons.injEq]
    exact ⟨rfl, loadAux_months_const (some (m ++ " " ++ y)) rest hrest⟩
  · unfold load_and_prepare_data
    rw [loadAux_append, List.take_left' (loadAux_length none pre2)]
    exact (loadAux_months_none pre2 none rfl hpre2).1

/-- C5 witness: the amended statement at a concrete table. -/
theorem C5_witness :
    ((load_and_prepare_data
        ([mkRaw none none none "" "" "A"] ++
          mkRaw none (some "Июнь 2021") none "" "" "A" ::
            [mkRaw none (some "подписан") none "" "" "A"])).drop 1).map
        (fun x => x.month_year) =
      List.replicate 2 (parse_month_year (some ("Июнь" ++ " " ++ "2021"))) ∧
    ((load_and_prepare_data
        ([mkRaw none (some "Договор 1234") none "" "" "A"] ++
          [mkRaw none (some "Июнь 2021") none "" "" "A"])).take 1).map
        (fun x => x.month_year) =
      List.replicate 1 none :=
  C5_amended [mkRaw none none none "" "" "A"]
    [mkRaw none (some "подписан") none "" "" "A"]
    (mkRaw none (some "Июнь 2021") none "" "" "A") "Июнь 2021" "Июнь" "2021"
    [mkRaw none (some "Договор 1234") none "" "" "A"]
    [mkRaw none (some "Июнь 2021") none "" "" "A"]
    rfl (by decide) (by decide) (by decide)

/-- C6 counterexample: on the literal two-row table of the claim (row 1
status "Июль 2021" amount 500,000, row 2 empty status amount 300,000) the
July-2021 revenue is 0.00, not 8000.00 — neither row's status equals the
paid marker "ОПЛАЧЕНО". -/
theorem C6_counterexample :
    calculate_july_revenue (load_and_prepare_data tblC6) = 0 ∧
    (0 : Rat) ≠ 8000 := by
  constructor
  · have h : (load_and_prepare_data tblC6).filter julyFilter = [] := by decide
    unfold calculate_july_revenue
    rw [h]
    norm_num [sumAmounts]
  · norm_num

/-- C6 (amended): the scenario's two amounts are only counted when they lie
on rows whose status is exactly "ОПЛАЧЕНО": the literal two-row table yields
0.00, and the realization with a month-marker row followed by the two paid
amount rows yields 8000.00. -/
theorem C6_amended :
    calculate_july_revenue (load_and_prepare_data tblC6) = 0 ∧
    calculate_july_revenue (load_and_prepare_data tblC6fix) = 8000 := by
  constructor
  · have h : (load_and_prepare_data tblC6).filter julyFilter = [] := by decide
    unfold calculate_july_revenue
    rw [h]
    norm_num [sumAmounts]
  · have h : sumAmounts ((load_and_prepare_data tblC6fix).filter julyFilter) =
        800000 := by decide
    unfold calculate_july_revenue
    rw [h]
    norm_num

/-- C7: revenue-for-July-2021 keeps exactly the rows whose deal-month equals
(7, 2021) and whose status exactly equals "ОПЛАЧЕНО", sums their amounts and
divides by 100; if no row matches it returns 0 rather than failing. -/
theorem C7_revenue_spec (df : List Row) :
    calculate_july_revenue df =
      (sumAmounts (df.filter fun x =>
        x.month_year == some (7, 2021) && x.status == some "ОПЛАЧЕНО") : Rat) / 100 ∧
    ((∀ x ∈ df, ¬(x.month_year = some (7, 2021) ∧ x.status = some "ОПЛАЧЕНО")) →
      calculate_july_revenue df = 0) := by
  have hpred : ∀ x : Row, julyFilter x =
      (x.month_year == some (7, 2021) && x.status == some "ОПЛАЧЕНО") := by
    intro x
    unfold julyFilter dtMonthEq dtYearEq isPaid
    cases x.month_year with
    | none => rfl
    | some p => rfl
  constructor
  · unfold calculate_july_revenue
    rw [List.filter_congr fun x _ => hpred x]
  · intro hnone
    have hfil : df.filter julyFilter = [] := by
      rw [List.filter_eq_nil_iff]
      intro x hx
      rw [hpred x]
      simp only [Bool.and_eq_true, beq_iff_eq]
      exact fun hc => hnone x hx hc
    unfold calculate_july_revenue
    rw [hfil]
    norm_num [sumAmounts]

/-- C7 witness: on a table whose only row has a null deal-month, the July
revenue is 0.0, not an error. -/
theorem C7_witness : calculate_july_revenue [rowNullMonth] = 0 :=
  (C7_revenue_spec [rowNullMonth]).2 (by decide)

/-- C8: the originals-received count equals the number of rows satisfying
deal-month = (May, 2021) AND document "оригинал" AND receiving date within
June 2021, the deal-month and receiving-date conditions being independent;
any row whose receiving date is not in June 2021 (e.g. July 2021) drops out
of the count. -/
theorem C8_originals_spec (df df1 df2 : List Row) (r : Row) (d : HDate)
    (hd : r.receiving_date = some d) (hne : ¬(d.month = 6 ∧ d.year = 2021)) :
    count_originals_in_june df =
      (df.filter fun x =>
        x.month_year == some (5, 2021) && x.document == "оригинал" &&
          match x.receiving_date with
          | some e => e.month == 6 && e.year == 2021
          | none => false).length ∧
    count_originals_in_june (df1 ++ r :: df2) =
      count_originals_in_june (df1 ++ df2) := by
  constructor
  · unfold count_originals_in_june
    rw [List.filter_filter]
    congr 1
    apply List.filter_congr
    intro x _
    unfold origJuneFilter mayFilter dtMonthEq dtYearEq rdMonthEq rdYearEq
    rw [Bool.eq_iff_iff]
    cases x.month_year with
    | none =>
        cases x.receiving_date with
        | none => simp
        | some e => simp
    | some p =>
        obtain ⟨m, yv⟩ := p
        cases x.receiving_date with
        | none => simp
        | some e =>
            simp only [Bool.and_eq_true, beq_iff_eq, Option.some.injEq,
              Prod.mk.injEq]
            tauto
  · have horig : origJuneFilter r = false := by
      rw [Bool.eq_false_iff]
      intro habs
      apply hne
      unfold origJuneFilter rdMonthEq rdYearEq at habs
      simp only [hd, Bool.and_eq_true, beq_iff_eq] at habs
      exact ⟨habs.1.2, habs.2⟩
    by_cases hmay : mayFilter r = true
    · unfold count_originals_in_june
      rw [List.filter_append df1 (r :: df2), List.filter_cons, if_pos hmay,
        List.filter_append df1 df2]
      rw [filter_mid_of_false (df1.filter mayFilter) (df2.filter mayFilter) horig]
    · unfold count_originals_in_june
      rw [filter_mid_of_false df1 df2 (Bool.eq_false_iff.mpr hmay)]

/-- C8 witness: a May-2021 original received on 15.07.2021 is excluded. -/
theorem C8_witness :
    count_originals_in_june [rowMayJulyRecv] =
      ([rowMayJulyRecv].filter fun x =>
        x.month_year == some (5, 2021) && x.document == "оригинал" &&
          match x.receiving_date with
          | some e => e.month == 6 && e.year == 2021
          | none => false).length ∧
    count_originals_in_june ([] ++ rowMayJulyRecv :: []) =
      count_originals_in_june ([] ++ []) :=
  C8_originals_spec [rowMayJulyRecv] [] [] rowMayJulyRecv ⟨15, 7, 2021⟩ rfl
    (by decide)

/-- C9: a missing source file makes the load fail with a file-not-found error
whose message carries the attempted path; any other read failure fails with a
generic "load failed" error wrapping the cause; in both cases `main` returns
an error message and no `Report` — no metric is computed and no partial
results exist. -/
theorem C9_load_errors (path msg : String) :
    load_and_prepare_data_io FileContent.missing path =
      Except.error (LoadError.fileNotFound
        ("Файл " ++ path ++ " не найден. Проверьте путь.")) ∧
    (∃ pre post, "Файл " ++ path ++ " не найден. Проверьте путь." =
      pre ++ path ++ post) ∧
    load_and_prepare_data_io (FileContent.unreadable msg) path =
      Except.error (LoadError.loadFailed
        ("Ошибка при загрузке данных: " ++ msg)) ∧
    main FileContent.missing = Except.error
      ("Ошибка при загрузке данных: " ++
        ("Файл " ++ "data.xlsx" ++ " не найден. Проверьте путь.")) ∧
    main (FileContent.unreadable msg) = Except.error
      ("Ошибка при загрузке данных: " ++
        ("Ошибка при загрузке данных: " ++ msg)) := by
  exact ⟨rfl, ⟨"Файл ", " не найден. Проверьте путь.", rfl⟩, rfl, rfl, rfl⟩

/-- C9 witness: the error shapes at a concrete path and cause. -/
theorem C9_witness :
    load_and_prepare_data_io FileContent.missing "data.xlsx" =
      Except.error (LoadError.fileNotFound
        ("Файл " ++ "data.xlsx" ++ " не найден. Проверьте путь.")) ∧
    (∃ pre post, "Файл " ++ "data.xlsx" ++ " не найден. Проверьте путь." =
      pre ++ "data.xlsx" ++ post) ∧
    load_and_prepare_data_io (FileContent.unreadable "bad sheet") "data.xlsx" =
      Except.error (LoadError.loadFailed
        ("Ошибка при загрузке данных: " ++ "bad sheet")) ∧
    main FileContent.missing = Except.error
      ("Ошибка при загрузке данных: " ++
        ("Файл " ++ "data.xlsx" ++ " не найден. Проверьте путь.")) ∧
    main (FileContent.unreadable "bad sheet") = Except.error
      ("Ошибка при загрузке данных: " ++
        ("Ошибка при загрузке данных: " ++ "bad sheet")) :=
  C9_load_errors "data.xlsx" "bad sheet"

/-- C10: a row whose derived deal-month is null contributes to no metric: it
is dropped before the monthly-revenue grouping (forming no group), and it
never passes the deal-month filter of the revenue, top-performer,
dominant-type, originals-count or bonus computations, so removing it changes
none of their results. -/
theorem C10_null_month_excluded (df1 df2 : List Row) (r : Row)
    (hr : r.month_year = none) :
    calculate_july_revenue (df1 ++ r :: df2) =
      calculate_july_revenue (df1 ++ df2) ∧
    monthly_revenue (df1 ++ r :: df2) = monthly_revenue (df1 ++ df2) ∧
    find_top_manager (df1 ++ r :: df2) = find_top_manager (df1 ++ df2) ∧
    find_dominant_deal_type (df1 ++ r :: df2) =
      find_dominant_deal_type (df1 ++ df2) ∧
    count_originals_in_june (df1 ++ r :: df2) =
      count_originals_in_june (df1 ++ df2) ∧
    calculate_bonus (df1 ++ r :: df2) = calculate_bonus (df1 ++ df2) ∧
    julyFilter r = false ∧ septFilter r = false ∧ octFilter r = false ∧
    mayFilter r = false ∧ beforeJulyFilter r = false := by
  have hjuly : julyFilter r = false := by simp [julyFilter, dtMonthEq, hr]
  have hsept : septFilter r = false := by simp [septFilter, dtMonthEq, hr]
  have hoct : octFilter r = false := by simp [octFilter, dtMonthEq, hr]
  have hmay : mayFilter r = false := by simp [mayFilter, dtMonthEq, hr]
  have hbj : beforeJulyFilter r = false := by
    simp [beforeJulyFilter, dtMonthLt, hr]
  refine ⟨?_, ?_, ?_, ?_, ?_, ?_, hjuly, hsept, hoct, hmay, hbj⟩
  · unfold calculate_july_revenue
    rw [filter_mid_of_false df1 df2 hjuly]
  · unfold monthly_revenue
    by_cases hp : isPaid r = true
    · rw [List.filter_append df1 (r :: df2), List.filter_cons, if_pos hp,
        List.filter_append df1 df2]
      rw [filterMap_mid_of_none (df1.filter isPaid) (df2.filter isPaid) hr]
      have hfun : ∀ k : Nat × Nat,
          (df1.filter isPaid ++ r :: df2.filter isPaid).filter
            (fun x => x.month_year == some k) =
          (df1.filter isPaid ++ df2.filter isPaid).filter
            (fun x => x.month_year == some k) := by
        intro k
        apply filter_mid_of_false
        simp [hr]
      simp only [hfun]
    · rw [filter_mid_of_false df1 df2 (Bool.eq_false_iff.mpr hp)]
  · unfold find_top_manager
    rw [filter_mid_of_false df1 df2 hsept]
  · unfold find_dominant_deal_type
    rw [filter_mid_of_false df1 df2 hoct]
  · unfold count_originals_in_june
    rw [filter_mid_of_false df1 df2 hmay]
  · unfold calculate_bonus bonusRows newDealsOf currentDealsOf
    rw [filter_mid_of_false df1 df2 hbj]

/-- C10 witness: removing a concrete null-deal-month row (which is paid, an
original, received in June 2021 and would pass every non-month filter)
changes no metric. -/
theorem C10_witness :
    calculate_july_revenue ([rowJulyPaid] ++ rowNullMonth :: []) =
      calculate_july_revenue ([rowJulyPaid] ++ []) ∧
    monthly_revenue ([rowJulyPaid] ++ rowNullMonth :: []) =
      monthly_revenue ([rowJulyPaid] ++ []) ∧
    find_top_manager ([rowJulyPaid] ++ rowNullMonth :: []) =
      find_top_manager ([rowJulyPaid] ++ []) ∧
    find_dominant_deal_type ([rowJulyPaid] ++ rowNullMonth :: []) =
      find_dominant_deal_type ([rowJulyPaid] ++ []) ∧
    count_originals_in_june ([rowJulyPaid] ++ rowNullMonth :: []) =
      count_originals_in_june ([rowJulyPaid] ++ []) ∧
    calculate_bonus ([rowJulyPaid] ++ rowNullMonth :: []) =
      calculate_bonus ([rowJulyPaid] ++ []) ∧
    julyFilter rowNullMonth = false ∧ septFilter rowNullMonth = false ∧
    octFilter rowNullMonth = false ∧ mayFilter rowNullMonth = false ∧
    beforeJulyFilter rowNullMonth = false :=
  C10_null_month_excluded [rowJulyPaid] [] rowNullMonth rfl

end Analyst
